import Mathlib

/-!
Verification of the chesscom-helper live-match check-and-notify workflow.

The development shallowly embeds the Python functions of
chesscom_app/common/chesscom_api.py, chesscom_app/services.py and
chesscom_app/views.py. External HTTP responses are passed in as values of
type Except String Json (error = a requests.RequestException raised during
get / raise_for_status / json decoding, carrying str(e); ok = the decoded
JSON body). The relational store is threaded explicitly as a list of rows.
The outbound mail transport is an oracle from recipient address to
Option String (none = delivery succeeded, some e = send_mail raised with
message e). Exceptions that escape a Python function are modelled as
explicit raised outcomes.
-/

/-- Decoded JSON value, as produced by response.json(). -/
inductive Json where
  | null
  | bool (b : Bool)
  | num (n : Int)
  | str (s : String)
  | arr (xs : List Json)
  | obj (fields : List (String × Json))
deriving Repr

/-- Python str.lower restricted to ASCII, which covers every username this
development evaluates. -/
def pyLower (s : String) : String := String.mk (s.data.map Char.toLower)

/-- Python truthiness of a decoded JSON value: None, False, 0, the empty
string, the empty list and the empty dict are falsy. -/
def jsonTruthy : Json → Bool
  | .null => false
  | .bool b => b
  | .num n => n != 0
  | .str s => s != ""
  | .arr xs => !xs.isEmpty
  | .obj fs => !fs.isEmpty

mutual
/-- Structural equality of decoded JSON values (Python == on the decoded
data). -/
def jsonBeq : Json → Json → Bool
  | .null, .null => true
  | .bool a, .bool b => a == b
  | .num a, .num b => a == b
  | .str a, .str b => a == b
  | .arr xs, .arr ys => jsonBeqList xs ys
  | .obj fs, .obj gs => jsonBeqFields fs gs
  | _, _ => false
def jsonBeqList : List Json → List Json → Bool
  | [], [] => true
  | x :: xs, y :: ys => jsonBeq x y && jsonBeqList xs ys
  | _, _ => false
def jsonBeqFields : List (String × Json) → List (String × Json) → Bool
  | [], [] => true
  | (k, v) :: xs, (l, w) :: ys => k == l && jsonBeq v w && jsonBeqFields xs ys
  | _, _ => false
end

/-- Python dict.get with a default, applied to a decoded JSON value. Returns
none when the receiver is not a dict: there the attribute lookup of .get
raises AttributeError. -/
def pyDictGet (j : Json) (k : String) (d : Json) : Option Json :=
  match j with
  | .obj fs => some (((fs.find? (fun p => p.1 == k)).map (fun p => p.2)).getD d)
  | _ => none

/-- Variant of pyDictGet for a receiver already known (or assumed) to be a
dict; on a non-dict receiver it returns the default instead of raising, and
is only ever applied where the receiver is a dict. -/
def objGet (j : Json) (k : String) (d : Json) : Json :=
  (pyDictGet j k d).getD d

/-- Whether a decoded JSON dict carries the given key at all (regardless of
the value, null included). False on non-dicts. -/
def hasKey (j : Json) (k : String) : Bool :=
  match j with
  | .obj fs => fs.any (fun p => p.1 == k)
  | _ => false

/-- Python iteration over a decoded JSON value: a list yields its elements, a
dict yields its keys as strings, a string yields its one-character
substrings; the remaining values are not iterable (TypeError, modelled as
none). -/
def pyIterate : Json → Option (List Json)
  | .arr xs => some xs
  | .obj fs => some (fs.map (fun p => Json.str p.1))
  | .str s => some (s.data.map (fun c => Json.str (String.mk [c])))
  | _ => none

/-- Rendering of a decoded JSON value inside a Python f-string. The scalar
cases match str(); the composite renderings are abbreviated, which no claim
observes. -/
def pyStr : Json → String
  | .null => "None"
  | .bool true => "True"
  | .bool false => "False"
  | .num n => toString n
  | .str s => s
  | .arr _ => "[...]"
  | .obj _ => "dict"

/-- Outcome of a Python computation that may let an exception escape. -/
inductive PyResult (α : Type) where
  | ok (a : α)
  | raised (e : String)
deriving Repr

/-- The user_data dict built by fetch_and_save_chesscom_user, one field per
key, each holding the decoded JSON value taken from the profile body. -/
structure UserData where
  player_id : Json
  url : Json
  name : Json
  username : Json
  followers : Json
  country : Json
  location : Json
  last_online : Json
  joined : Json
  status : Json
  is_streamer : Json
  verified : Json
  league : Json
  streaming_platforms : Json
deriving Repr

/-- A row of the User table: the upserted profile fields plus the is_playing
flag, which is absent from user_data and therefore defaults to false on
creation and is preserved on update. -/
structure StoredUser where
  data : UserData
  is_playing : Bool
deriving Repr

/-- Builds the user_data dict of fetch_and_save_chesscom_user from the
decoded profile body. Returns none exactly when the Python try block would
raise while building it: the body is not a dict (so .get raises
AttributeError) or the username value is not a string (so .lower() raises
AttributeError); either exception is caught by the surrounding except and
becomes the 500 error result. -/
def buildUserData (cd : Json) : Option UserData :=
  match cd with
  | .obj _ =>
    match objGet cd "username" Json.null with
    | .str s => some {
        player_id := objGet cd "player_id" Json.null,
        url := objGet cd "url" Json.null,
        name := objGet cd "name" Json.null,
        username := Json.str (pyLower s),
        followers := objGet cd "followers" (Json.num 0),
        country := objGet cd "country" Json.null,
        location := objGet cd "location" Json.null,
        last_online := objGet cd "last_online" Json.null,
        joined := objGet cd "joined" Json.null,
        status := objGet cd "status" Json.null,
        is_streamer := objGet cd "is_streamer" (Json.bool false),
        verified := objGet cd "verified" (Json.bool false),
        league := objGet cd "league" Json.null,
        streaming_platforms := objGet cd "streaming_platforms" (Json.arr []) }
    | _ => none
  | _ => none

/-- Replaces the data of the first row whose player_id matches, keeping that
row's is_playing flag; the update branch of update_or_create. -/
def replaceByPlayerId : List StoredUser → Json → UserData → List StoredUser
  | [], _, _ => []
  | r :: rs, pid, d =>
    if jsonBeq r.data.player_id pid then { data := d, is_playing := r.is_playing } :: rs
    else r :: replaceByPlayerId rs pid d

/-- Django User.objects.update_or_create keyed on player_id with
defaults=user_data: updates the matching row if one exists, otherwise
appends a fresh row with the model default is_playing=false. The second
component is the created flag. The primary-key constraint keeps player_id
unique, so matching the first row is exact. -/
def update_or_create (store : List StoredUser) (pid : Json) (d : UserData) : List StoredUser × Bool :=
  if (store.find? (fun r => jsonBeq r.data.player_id pid)).isSome then
    (replaceByPlayerId store pid d, false)
  else (store ++ [{ data := d, is_playing := false }], true)

/-- Return value of fetch_and_save_chesscom_user: the success dict with its
message, user_data and status, or the error dict with its message and
status. The except Exception handler makes a raised outcome impossible. -/
inductive FetchOutcome where
  | ok (message : String) (user : UserData) (status : Nat)
  | error (msg : String) (status : Nat)
deriving Repr

/-- fetch_and_save_chesscom_user of chesscom_api.py. The username is
lowercased only to build the request URL, which the response oracle stands
for; any exception inside the try block is caught and converted to the 500
error dict, the AttributeError cases via buildUserData = none. -/
def fetch_and_save_chesscom_user (username : String) (resp : Except String Json) (store : List StoredUser) : FetchOutcome × List StoredUser :=
  match resp with
  | .error e => (.error ("Error fetching player data: " ++ e) 500, store)
  | .ok cd =>
    match buildUserData cd with
    | none => (.error ("Error fetching player data: AttributeError") 500, store)
    | some d =>
      let res := update_or_create store d.player_id d
      if res.2 then
        (.ok ("New user \x27" ++ username ++ "\x27 added.") d 201, res.1)
      else
        (.ok ("User \x27" ++ username ++ "\x27 updated.") d 200, res.1)

/-- The dict appended to live_games for a game that passed the liveness
check; each field defaults to None when absent. -/
def mkLiveGame (g : Json) : Json :=
  Json.obj [
    ("url", objGet g "url" Json.null),
    ("turn", objGet g "turn" Json.null),
    ("move_by", objGet g "move_by" Json.null),
    ("time_control", objGet g "time_control" Json.null)]

/-- The for-loop of check_player_live_games: a game is appended to
live_games when game.get of move_by and of turn are both truthy; a non-dict
game raises AttributeError at the first .get. -/
def collectLiveGames : List Json → PyResult (List Json)
  | [] => .ok []
  | g :: gs =>
    match pyDictGet g "move_by" Json.null, pyDictGet g "turn" Json.null with
    | some mb, some tn =>
      match collectLiveGames gs with
      | .ok rest => .ok (if jsonTruthy mb && jsonTruthy tn then mkLiveGame g :: rest else rest)
      | .raised e => .raised e
    | _, _ => .raised "AttributeError"

/-- The success dict returned by check_player_live_games. -/
structure LiveGamesOk where
  username : String
  is_playing : Bool
  live_games : List Json
  total_games : Nat
deriving Repr

/-- Return value of check_player_live_games: the success dict, the error
dict produced by the except RequestException handler, or an exception that
escaped the function (the handler catches only RequestException). -/
inductive GamesOutcome where
  | ok (r : LiveGamesOk)
  | error (msg : String) (username : String)
  | raised (e : String)
deriving Repr

/-- check_player_live_games of chesscom_api.py. The response oracle stands
for the HTTP call on the lowercased username; a RequestException there is
the error input. A body that decodes but is not a dict raises AttributeError
at games_data.get, which no handler catches. -/
def check_player_live_games (username : String) (resp : Except String Json) : GamesOutcome :=
  match resp with
  | .error e => .error ("Error fetching games for " ++ username ++ ": " ++ e) username
  | .ok body =>
    match pyDictGet body "games" (Json.arr []) with
    | none => .raised "AttributeError"
    | some gamesVal =>
      match pyIterate gamesVal with
      | none => .raised "TypeError"
      | some games =>
        match collectLiveGames games with
        | .raised e => .raised e
        | .ok live => .ok { username := username, is_playing := decide (0 < live.length),
                            live_games := live, total_games := games.length }

/-- Django User.objects.get(username=un) for an exact username value; the
unique constraint on username keeps the first match exact. -/
def findUser (store : List StoredUser) (un : String) : Option StoredUser :=
  store.find? (fun r => jsonBeq r.data.username (Json.str un))

/-- The user.save() write of update_player_status: rewrites the matched
row's is_playing flag in place. -/
def setPlaying : List StoredUser → String → Bool → List StoredUser
  | [], _, _ => []
  | r :: rs, un, b =>
    if jsonBeq r.data.username (Json.str un) then { r with is_playing := b } :: rs
    else r :: setPlaying rs un b

/-- The success dict returned by update_player_status. -/
structure StatusResult where
  username : String
  was_playing : Bool
  is_now_playing : Bool
  status_changed : Bool
  live_games : List Json
deriving Repr

/-- Return value of update_player_status: the success dict, an error dict
(the not-found dict of the except DoesNotExist handler, or the games error
dict returned through unchanged), or an exception that escaped (only
DoesNotExist is caught). -/
inductive UpdateOutcome where
  | ok (r : StatusResult)
  | error (msg : String) (username : String)
  | raised (e : String)
deriving Repr

/-- update_player_status of chesscom_api.py, threading the User store. -/
def update_player_status (username : String) (resp : Except String Json) (store : List StoredUser) : UpdateOutcome × List StoredUser :=
  match findUser store (pyLower username) with
  | none => (.error ("User " ++ username ++ " not found in database") username, store)
  | some u =>
    match check_player_live_games username resp with
    | .error m un => (.error m un, store)
    | .raised e => (.raised e, store)
    | .ok g =>
      (.ok { username := username, was_playing := u.is_playing,
             is_now_playing := g.is_playing,
             status_changed := u.is_playing != g.is_playing,
             live_games := g.live_games },
       setPlaying store (pyLower username) g.is_playing)

/-- A row of the EmailSubscription table; player_id is the foreign key to
the User row (its player_id primary key). -/
structure Subscription where
  email : String
  player_id : Json
  is_active : Bool
deriving Repr

/-- A row of the NotificationLog table, referencing its subscription by the
(email, player) pair that is unique for subscriptions. -/
structure NotificationLogRow where
  subscription_email : String
  subscription_player : Json
  notification_type : String
  success : Bool
  error_message : Option String
deriving Repr

/-- EmailSubscription.objects.filter(player=user, is_active=True), in table
order. -/
def activeSubscriptionsFor (subs : List Subscription) (user : StoredUser) : List Subscription :=
  subs.filter (fun s => jsonBeq s.player_id user.data.player_id && s.is_active)

/-- One line of game_details in send_live_match_notification; none when the
game value is not a dict, where .get raises AttributeError. -/
def gameDetailLine (g : Json) : Option String :=
  match pyDictGet g "time_control" (Json.str "Unknown"), pyDictGet g "url" (Json.str "#") with
  | some tc, some u => some ("- Time Control: " ++ pyStr tc ++ "\n  Game URL: " ++ pyStr u)
  | _, _ => none

/-- The game_details loop of send_live_match_notification; none when any
game raises. It runs before the delivery loop, so a raise here escapes
before any mail is sent or any log row written. -/
def gameDetailLines : List Json → Option (List String)
  | [] => some []
  | g :: gs =>
    match gameDetailLine g, gameDetailLines gs with
    | some l, some ls => some (l :: ls)
    | _, _ => none

/-- The NotificationLog row appended for one delivery attempt: success row
when the mail oracle reports success, failure row carrying str(e)
otherwise. -/
def notificationRow (mail : String → Option String) (s : Subscription) : NotificationLogRow :=
  match mail s.email with
  | none => { subscription_email := s.email, subscription_player := s.player_id,
              notification_type := "live_match", success := true, error_message := none }
  | some e => { subscription_email := s.email, subscription_player := s.player_id,
                notification_type := "live_match", success := false, error_message := some e }

/-- The delivery loop of send_live_match_notification over the active
subscriptions: per subscription one send_mail attempt inside try/except,
one appended log row, and one counter increment. Returns the
successful_sends and failed_sends counters and the appended rows in loop
order. -/
def deliverAll (mail : String → Option String) : List Subscription → Nat × Nat × List NotificationLogRow
  | [] => (0, 0, [])
  | s :: ss =>
    let rest := deliverAll mail ss
    match mail s.email with
    | none => (rest.1 + 1, rest.2.1, notificationRow mail s :: rest.2.2)
    | some _ => (rest.1, rest.2.1 + 1, notificationRow mail s :: rest.2.2)

/-- Return value of send_live_match_notification: the no-active-subscription
dict, the processed dict with its counters, or an exception that escaped
while building game_details (the per-send try/except catches delivery
faults, but nothing catches faults outside the loop). -/
inductive NotifyOutcome where
  | noActive (message : String)
  | processed (message : String) (successful_sends : Nat) (failed_sends : Nat) (total_subscriptions : Nat)
  | raised (e : String)
deriving Repr

/-- send_live_match_notification of services.py, threading the
NotificationLog table. The subject and body text are built from the user
and game_details and handed to the mail transport; only the game_details
construction can raise, so the remaining text is not materialised here. -/
def send_live_match_notification (user : StoredUser) (live_games : List Json) (subs : List Subscription) (logs : List NotificationLogRow) (mail : String → Option String) : NotifyOutcome × List NotificationLogRow :=
  let active := activeSubscriptionsFor subs user
  if active.isEmpty then
    (.noActive ("No active subscriptions for " ++ pyStr user.data.username), logs)
  else
    match gameDetailLines live_games with
    | none => (.raised "AttributeError", logs)
    | some _ =>
      let d := deliverAll mail active
      (.processed ("Notifications processed for " ++ pyStr user.data.username) d.1 d.2.1
        active.length,
       logs ++ d.2.2)

/-- An entry of the errors list of check_and_notify_all_users; every
appended dict carries an error message and a username key. -/
structure ErrorEntry where
  error : String
  username : String
deriving Repr

/-- The mutable state of one batch run: the User store, the NotificationLog
table, and the two accumulators of the loop. -/
structure BatchState where
  store : List StoredUser
  logs : List NotificationLogRow
  notifications_sent : Nat
  errors : List ErrorEntry
deriving Repr

/-- notification_result.get of the successful_sends key with default 0: the
no-active-subscription dict has no such key. -/
def resultSends : NotifyOutcome → Nat
  | .processed _ s _ _ => s
  | _ => 0

/-- The body of the per-user loop of check_and_notify_all_users: call
update_player_status; on its error dict append it to errors and continue;
on a genuine transition invoke the notifier and add its successful-send
count; any exception that escapes either call is caught by the per-user
except handler, which appends an error dict carrying the username. -/
def processOneUser (resp : String → Except String Json) (mail : String → Option String) (subs : List Subscription) (st : BatchState) (user : StoredUser) : BatchState :=
  let uname := pyStr user.data.username
  match update_player_status uname (resp uname) st.store with
  | (.error m un, store2) =>
    { st with store := store2, errors := st.errors ++ [{ error := m, username := un }] }
  | (.raised e, store2) =>
    { st with
      store := store2,
      errors := st.errors ++
        [{ error := "Error processing " ++ uname ++ ": " ++ e, username := uname }] }
  | (.ok r, store2) =>
    if !r.was_playing && r.is_now_playing && r.status_changed then
      match send_live_match_notification user r.live_games subs st.logs mail with
      | (.raised e, logs2) =>
        { st with
          store := store2,
          logs := logs2,
          errors := st.errors ++
            [{ error := "Error processing " ++ uname ++ ": " ++ e, username := uname }] }
      | (res, logs2) =>
        { st with
          store := store2,
          logs := logs2,
          notifications_sent := st.notifications_sent + resultSends res }
    else
      { st with store := store2 }

/-- The aggregate dict returned by check_and_notify_all_users. -/
structure BatchReport where
  message : String
  total_users_checked : Nat
  notifications_sent : Nat
  errors : List ErrorEntry
deriving Repr

/-- check_and_notify_all_users of services.py: iterates the snapshot of all
User rows, threading the store through the per-user step; the final
users.count() re-query is the length of the final store. Returns the
aggregate report together with the final state. -/
def check_and_notify_all_users (resp : String → Except String Json) (mail : String → Option String) (subs : List Subscription) (store : List StoredUser) (logs : List NotificationLogRow) : BatchReport × BatchState :=
  let final := store.foldl (processOneUser resp mail subs)
    { store := store, logs := logs, notifications_sent := 0, errors := [] }
  ({ message := "Batch check completed", total_users_checked := final.store.length,
     notifications_sent := final.notifications_sent, errors := final.errors }, final)

/-- A JsonResponse: body and HTTP status. -/
inductive ViewOutcome where
  | ok (body : Json) (status : Nat)
  | error (body : Json) (status : Nat)
deriving Repr

/-- get_chesscom_user of views.py: lowercases the username, then looks the
stored player up by exact match on the lowercased value. -/
def get_chesscom_user (username : String) (store : List StoredUser) : ViewOutcome :=
  match findUser store (pyLower username) with
  | some u => .ok (Json.obj [
      ("player_id", u.data.player_id), ("username", u.data.username),
      ("name", u.data.name), ("followers", u.data.followers),
      ("country", u.data.country), ("league", u.data.league),
      ("last_online", u.data.last_online), ("is_streamer", u.data.is_streamer)]) 200
  | none => .error (Json.obj [("error", Json.str "User not found")]) 404

/-- The user.delete() of remove_chesscom_user: removes the matched row. -/
def deleteFirstByUsername : List StoredUser → String → List StoredUser
  | [], _ => []
  | r :: rs, un =>
    if jsonBeq r.data.username (Json.str un) then rs
    else r :: deleteFirstByUsername rs un

/-- remove_chesscom_user of views.py: looks the player up by the username
exactly as given, without lowercasing it, and deletes the match. -/
def remove_chesscom_user (username : String) (store : List StoredUser) : ViewOutcome × List StoredUser :=
  match store.find? (fun r => jsonBeq r.data.username (Json.str username)) with
  | some _ => (.ok (Json.obj [("message", Json.str "User removed")]) 200,
               deleteFirstByUsername store username)
  | none => (.error (Json.obj [("error", Json.str "User not found")]) 404, store)

/-- Whether a decoded JSON value is a dict. -/
def jsonIsObj : Json → Bool
  | .obj _ => true
  | _ => false

/-- The liveness condition of the check_player_live_games loop on a single
game dict: both fetched values are truthy. -/
def liveCond (g : Json) : Bool :=
  jsonTruthy (objGet g "move_by" Json.null) && jsonTruthy (objGet g "turn" Json.null)

/-- Number of User rows carrying the given player_id. -/
def countByPlayerId (store : List StoredUser) (pid : Json) : Nat :=
  (store.filter (fun r => jsonBeq r.data.player_id pid)).length

/-- Concrete profile fixture used by the evaluation witnesses. -/
def magnusData : UserData := {
  player_id := Json.num 1,
  url := Json.str "https://chess.com/member/magnus",
  name := Json.str "Magnus Carlsen",
  username := Json.str "magnus",
  followers := Json.num 0,
  country := Json.null,
  location := Json.null,
  last_online := Json.num 0,
  joined := Json.num 0,
  status := Json.str "premium",
  is_streamer := Json.bool false,
  verified := Json.bool false,
  league := Json.null,
  streaming_platforms := Json.arr [] }

/-- Stored row for the fixture player, not currently playing. -/
def magnusUser : StoredUser := { data := magnusData, is_playing := false }

/-- A well-formed live game as returned upstream: move_by and turn present
and truthy. -/
def liveGameJson : Json := Json.obj [
  ("url", Json.str "https://g1"), ("turn", Json.str "white"),
  ("move_by", Json.num 1700000000), ("time_control", Json.str "600")]

/-- A games body whose single game is live. -/
def okGamesBody : Json := Json.obj [("games", Json.arr [liveGameJson])]

/-- A game whose move_by key is present but holds 0: present yet falsy. -/
def zeroMoveByGame : Json := Json.obj [
  ("url", Json.str "https://g2"), ("turn", Json.str "white"),
  ("move_by", Json.num 0), ("time_control", Json.str "600")]

/-- A profile body fixture for the upsert witnesses. -/
def profileBody1 : Json := Json.obj [
  ("player_id", Json.num 1), ("username", Json.str "Magnus"),
  ("name", Json.str "Magnus Carlsen"), ("url", Json.str "https://chess.com/member/magnus"),
  ("followers", Json.num 5), ("last_online", Json.num 10), ("joined", Json.num 2),
  ("status", Json.str "premium")]

/-- The same profile with changed upstream data under the same numeric id. -/
def profileBody2 : Json := Json.obj [
  ("player_id", Json.num 1), ("username", Json.str "Magnus"),
  ("name", Json.str "M. Carlsen"), ("url", Json.str "https://chess.com/member/magnus"),
  ("followers", Json.num 9), ("last_online", Json.num 20), ("joined", Json.num 2),
  ("status", Json.str "premium")]

/-- Subscription fixture: first subscriber of the fixture player. -/
def subA : Subscription := { email := "a@x.com", player_id := Json.num 1, is_active := true }

/-- Subscription fixture: second subscriber of the fixture player. -/
def subB : Subscription := { email := "b@x.com", player_id := Json.num 1, is_active := true }

/-- Mail oracle fixture: delivery to the second subscriber raises. -/
def mailOneFailure : String → Option String :=
  fun e => if e == "b@x.com" then some "SMTP Error" else none

/-- The user_data dict the fetch builds from profileBody1: absent optional
fields defaulted, username lowercased. -/
def magnusData1 : UserData := {
  player_id := Json.num 1,
  url := Json.str "https://chess.com/member/magnus",
  name := Json.str "Magnus Carlsen",
  username := Json.str "magnus",
  followers := Json.num 5,
  country := Json.null,
  location := Json.null,
  last_online := Json.num 10,
  joined := Json.num 2,
  status := Json.str "premium",
  is_streamer := Json.bool false,
  verified := Json.bool false,
  league := Json.null,
  streaming_platforms := Json.arr [] }

/-- The user_data dict the fetch builds from profileBody2. -/
def magnusData2 : UserData := {
  player_id := Json.num 1,
  url := Json.str "https://chess.com/member/magnus",
  name := Json.str "M. Carlsen",
  username := Json.str "magnus",
  followers := Json.num 9,
  country := Json.null,
  location := Json.null,
  last_online := Json.num 20,
  joined := Json.num 2,
  status := Json.str "premium",
  is_streamer := Json.bool false,
  verified := Json.bool false,
  league := Json.null,
  streaming_platforms := Json.arr [] }

lemma jsonBeq_num (a b : Int) : jsonBeq (Json.num a) (Json.num b) = (a == b) := rfl

lemma pyDictGet_of_obj (g : Json) (k : String) (d : Json) (h : jsonIsObj g = true) :
    pyDictGet g k d = some (objGet g k d) := by
  cases g <;> simp_all [jsonIsObj, pyDictGet, objGet]

lemma pyDictGet_some_isObj (g : Json) (k : String) (d v : Json)
    (h : pyDictGet g k d = some v) : jsonIsObj g = true := by
  cases g <;> simp_all [jsonIsObj, pyDictGet]

lemma mkLiveGame_isObj (g : Json) : jsonIsObj (mkLiveGame g) = true := rfl

/-- The live-games loop returns normally exactly on a list of dicts, and then
collects, in order, the dicts built from the games whose move_by and turn
values are truthy. -/
lemma collectLiveGames_ok : ∀ (gs live : List Json), collectLiveGames gs = .ok live →
    (∀ g ∈ gs, jsonIsObj g = true) ∧ live = (gs.filter liveCond).map mkLiveGame := by
  intro gs
  induction gs with
  | nil =>
    intro live h
    rw [collectLiveGames] at h
    cases h
    simp
  | cons g gs ih =>
    intro live h
    rw [collectLiveGames] at h
    cases hmb : pyDictGet g "move_by" Json.null with
    | none => rw [hmb] at h; cases h
    | some mb =>
      cases htn : pyDictGet g "turn" Json.null with
      | none => rw [hmb, htn] at h; cases h
      | some tn =>
        rw [hmb, htn] at h
        cases hrec : collectLiveGames gs with
        | raised e => rw [hrec] at h; cases h
        | ok rest =>
          rw [hrec] at h
          have hobj : jsonIsObj g = true := pyDictGet_some_isObj g "move_by" Json.null mb hmb
          obtain ⟨hall, hform⟩ := ih rest hrec
          have hmb2 : objGet g "move_by" Json.null = mb := by rw [objGet, hmb]; rfl
          have htn2 : objGet g "turn" Json.null = tn := by rw [objGet, htn]; rfl
          constructor
          · intro x hx
            rcases List.mem_cons.mp hx with hx | hx
            · rw [hx]; exact hobj
            · exact hall x hx
          · cases h
            rw [List.filter_cons]
            by_cases hc : liveCond g = true
            · have : (jsonTruthy mb && jsonTruthy tn) = true := by
                rw [liveCond, hmb2, htn2] at hc; exact hc
              simp [hc, this, hform]
            · have : (jsonTruthy mb && jsonTruthy tn) = false := by
                rw [liveCond, hmb2, htn2] at hc
                exact Bool.not_eq_true _ ▸ (by simpa using hc)
              simp [hc, this, hform]

/-- Converse form: on a list of dicts the loop cannot raise. -/
lemma collectLiveGames_of_objs : ∀ (gs : List Json), (∀ g ∈ gs, jsonIsObj g = true) →
    collectLiveGames gs = .ok ((gs.filter liveCond).map mkLiveGame) := by
  intro gs
  induction gs with
  | nil => intro h; rfl
  | cons g gs ih =>
    intro h
    have hg : jsonIsObj g = true := h g (by simp)
    have hrest := ih (fun x hx => h x (by simp [hx]))
    rw [collectLiveGames, pyDictGet_of_obj g "move_by" Json.null hg,
        pyDictGet_of_obj g "turn" Json.null hg, hrest, List.filter_cons]
    by_cases hc : (jsonTruthy (objGet g "move_by" Json.null)
        && jsonTruthy (objGet g "turn" Json.null)) = true
    · simp [hc, liveCond]
    · rw [Bool.not_eq_true] at hc
      have hc2 : liveCond g = false := by rw [liveCond]; exact hc
      simp [hc, hc2]

/-- An error outcome of the live-games check always carries the username the
check was called with. -/
lemma check_error_inv (u : String) (resp : Except String Json) (m un : String)
    (h : check_player_live_games u resp = .error m un) : un = u := by
  cases resp with
  | error e =>
    rw [check_player_live_games] at h
    cases h
    rfl
  | ok body =>
    rw [check_player_live_games] at h
    cases hg : pyDictGet body "games" (Json.arr []) with
    | none => rw [hg] at h; cases h
    | some gv =>
      simp only [hg] at h
      cases hi : pyIterate gv with
      | none => rw [hi] at h; cases h
      | some games =>
        simp only [hi] at h
        cases hc : collectLiveGames games with
        | raised e => rw [hc] at h; cases h
        | ok live => rw [hc] at h; cases h

/-- A success outcome of the live-games check contains only dict-shaped
entries in its live list. -/
lemma check_ok_objs (u : String) (resp : Except String Json) (r : LiveGamesOk)
    (h : check_player_live_games u resp = .ok r) :
    ∀ x ∈ r.live_games, jsonIsObj x = true := by
  cases resp with
  | error e => rw [check_player_live_games] at h; cases h
  | ok body =>
    rw [check_player_live_games] at h
    cases hg : pyDictGet body "games" (Json.arr []) with
    | none => rw [hg] at h; cases h
    | some gv =>
      simp only [hg] at h
      cases hi : pyIterate gv with
      | none => rw [hi] at h; cases h
      | some games =>
        simp only [hi] at h
        cases hc : collectLiveGames games with
        | raised e => rw [hc] at h; cases h
        | ok live =>
          rw [hc] at h
          cases h
          intro x hx
          obtain ⟨-, hform⟩ := collectLiveGames_ok games live hc
          rw [hform] at hx
          obtain ⟨g, -, hgx⟩ := List.mem_map.mp hx
          rw [← hgx]
          exact mkLiveGame_isObj g

/-- A success outcome of the status updater contains only dict-shaped
entries in its live list. -/
lemma update_ok_objs (username : String) (resp : Except String Json)
    (store s2 : List StoredUser) (r : StatusResult)
    (h : update_player_status username resp store = (.ok r, s2)) :
    ∀ x ∈ r.live_games, jsonIsObj x = true := by
  rw [update_player_status] at h
  cases hf : findUser store (pyLower username) with
  | none => rw [hf] at h; cases h
  | some u =>
    rw [hf] at h
    cases hc : check_player_live_games username resp with
    | error m un => rw [hc] at h; cases h
    | raised e => rw [hc] at h; cases h
    | ok g =>
      rw [hc] at h
      cases h
      exact check_ok_objs username resp g hc

/-- An error outcome of the status updater leaves the store untouched and
carries the username the updater was called with. -/
lemma update_error_inv (username : String) (resp : Except String Json)
    (store s2 : List StoredUser) (m un : String)
    (h : update_player_status username resp store = (.error m un, s2)) :
    un = username ∧ s2 = store := by
  rw [update_player_status] at h
  cases hf : findUser store (pyLower username) with
  | none =>
    rw [hf] at h
    cases h
    exact ⟨rfl, rfl⟩
  | some u =>
    rw [hf] at h
    cases hc : check_player_live_games username resp with
    | error m2 un2 =>
      rw [hc] at h
      cases h
      exact ⟨check_error_inv username resp m un hc, rfl⟩
    | raised e => rw [hc] at h; cases h
    | ok g => rw [hc] at h; cases h

/-- The delivery loop in closed form: one success count, one failure count
and one appended row per subscription, each depending only on that
subscription's own delivery outcome. -/
lemma deliverAll_spec (mail : String → Option String) : ∀ (ss : List Subscription),
    deliverAll mail ss =
      ((ss.filter (fun s => (mail s.email).isNone)).length,
       (ss.filter (fun s => (mail s.email).isSome)).length,
       ss.map (notificationRow mail)) := by
  intro ss
  induction ss with
  | nil => rfl
  | cons s ss ih =>
    rw [deliverAll, ih]
    cases hm : mail s.email <;> simp [List.filter_cons, hm]

/-- Every subscription lands in exactly one of the two delivery-outcome
partitions. -/
lemma filter_mail_split (mail : String → Option String) : ∀ (ss : List Subscription),
    (ss.filter (fun s => (mail s.email).isNone)).length
      + (ss.filter (fun s => (mail s.email).isSome)).length = ss.length := by
  intro ss
  induction ss with
  | nil => rfl
  | cons s ss ih =>
    cases hm : mail s.email <;>
      simp [List.filter_cons, hm] <;> omega

/-- Building game_details cannot raise on a list of dict-shaped games. -/
lemma gameDetailLines_of_objs : ∀ (l : List Json), (∀ g ∈ l, jsonIsObj g = true) →
    ∃ ls, gameDetailLines l = some ls := by
  intro l
  induction l with
  | nil => intro h; exact ⟨[], rfl⟩
  | cons g gs ih =>
    intro h
    obtain ⟨ls, hls⟩ := ih (fun x hx => h x (by simp [hx]))
    have hg := h g (by simp)
    have hline : gameDetailLine g = some ("- Time Control: "
        ++ pyStr (objGet g "time_control" (Json.str "Unknown"))
        ++ "\n  Game URL: " ++ pyStr (objGet g "url" (Json.str "#"))) := by
      rw [gameDetailLine, pyDictGet_of_obj g "time_control" (Json.str "Unknown") hg,
          pyDictGet_of_obj g "url" (Json.str "#") hg]
    exact ⟨_, by rw [gameDetailLines, hline, hls]⟩

/-- The notifier on a nonempty active-subscription list and dict-shaped
games: returns the processed counters and appends exactly the per-attempt
rows, in order. -/
lemma notify_shape (user : StoredUser) (live : List Json) (subs : List Subscription)
    (logs : List NotificationLogRow) (mail : String → Option String)
    (hobjs : ∀ g ∈ live, jsonIsObj g = true)
    (a : Subscription) (rest : List Subscription)
    (hact : activeSubscriptionsFor subs user = a :: rest) :
    send_live_match_notification user live subs logs mail =
      (.processed ("Notifications processed for " ++ pyStr user.data.username)
        ((a :: rest).filter (fun s => (mail s.email).isNone)).length
        ((a :: rest).filter (fun s => (mail s.email).isSome)).length
        (a :: rest).length,
       logs ++ (a :: rest).map (notificationRow mail)) := by
  obtain ⟨ls, hls⟩ := gameDetailLines_of_objs live hobjs
  rw [send_live_match_notification]
  simp only [hact, List.isEmpty_cons, Bool.false_eq_true, if_false, hls, deliverAll_spec]

/-- In the orchestrated flow the notifier never raises: the games handed to
it are the dicts built by the live-games check. -/
lemma notify_not_raised (user : StoredUser) (live : List Json) (subs : List Subscription)
    (logs : List NotificationLogRow) (mail : String → Option String)
    (hobjs : ∀ g ∈ live, jsonIsObj g = true) (e : String) :
    (send_live_match_notification user live subs logs mail).1 ≠ .raised e := by
  cases hact : activeSubscriptionsFor subs user with
  | nil =>
    rw [send_live_match_notification]
    simp [hact]
  | cons a rest =>
    rw [notify_shape user live subs logs mail hobjs a rest hact]
    simp

/-- Rewriting the is_playing flag of the row a username lookup finds is
visible to the next lookup of the same username. -/
lemma findUser_setPlaying : ∀ (store : List StoredUser) (un : String) (b : Bool)
    (u : StoredUser), findUser store un = some u →
    findUser (setPlaying store un b) un = some { u with is_playing := b } := by
  intro store un b
  induction store with
  | nil => intro u h; simp [findUser] at h
  | cons r rs ih =>
    intro u h
    cases hr : jsonBeq r.data.username (Json.str un) with
    | true =>
      rw [findUser, @List.find?_cons_of_pos StoredUser
        (fun x => jsonBeq x.data.username (Json.str un)) r rs hr] at h
      cases h
      rw [setPlaying, if_pos hr, findUser]
      exact @List.find?_cons_of_pos StoredUser
        (fun x => jsonBeq x.data.username (Json.str un)) _ rs hr
    | false =>
      rw [findUser, @List.find?_cons_of_neg StoredUser
        (fun x => jsonBeq x.data.username (Json.str un)) r rs (by simp [hr])] at h
      rw [setPlaying, if_neg (by simp [hr]), findUser,
          @List.find?_cons_of_neg StoredUser
            (fun x => jsonBeq x.data.username (Json.str un)) r (setPlaying rs un b)
            (by simp [hr])]
      exact ih u h

lemma count_zero_all_false (store : List StoredUser) (pid : Json)
    (h : countByPlayerId store pid = 0) :
    ∀ r ∈ store, jsonBeq r.data.player_id pid = false := by
  rw [countByPlayerId, List.length_eq_zero, List.filter_eq_nil_iff] at h
  intro r hr
  simpa using h r hr

lemma find?_none_of_count_zero (store : List StoredUser) (pid : Json)
    (h : countByPlayerId store pid = 0) :
    store.find? (fun r => jsonBeq r.data.player_id pid) = none := by
  rw [List.find?_eq_none]
  intro x hx
  simp [count_zero_all_false store pid h x hx]

lemma find?_append_singleton (store : List StoredUser) (x : StoredUser)
    (p : StoredUser → Bool) (h : store.find? p = none) (hx : p x = true) :
    (store ++ [x]).find? p = some x := by
  induction store with
  | nil => exact List.find?_cons_of_pos [] hx
  | cons r rs ih =>
    rw [List.find?_eq_none] at h
    have hr : ¬ p r = true := h r (by simp)
    rw [List.cons_append, List.find?_cons_of_neg _ hr]
    exact ih (List.find?_eq_none.mpr (fun y hy => h y (by simp [hy])))

lemma replaceByPlayerId_append (store : List StoredUser) (pid : Json) (d : UserData)
    (x : StoredUser) (hnone : ∀ r ∈ store, jsonBeq r.data.player_id pid = false)
    (hx : jsonBeq x.data.player_id pid = true) :
    replaceByPlayerId (store ++ [x]) pid d
      = store ++ [{ data := d, is_playing := x.is_playing }] := by
  induction store with
  | nil => simp [replaceByPlayerId, hx]
  | cons r rs ih =>
    have hr := hnone r (by simp)
    rw [List.cons_append, replaceByPlayerId, if_neg (by simp [hr]),
        ih (fun y hy => hnone y (by simp [hy])), List.cons_append]

lemma countByPlayerId_append (s t : List StoredUser) (pid : Json) :
    countByPlayerId (s ++ t) pid = countByPlayerId s pid + countByPlayerId t pid := by
  simp [countByPlayerId, List.filter_append]

lemma countByPlayerId_single_pos (x : StoredUser) (pid : Json)
    (hx : jsonBeq x.data.player_id pid = true) : countByPlayerId [x] pid = 1 := by
  simp [countByPlayerId, List.filter_cons, hx]

/-- A raised outcome of the status updater leaves the store untouched. -/
lemma update_raised_inv (username : String) (resp : Except String Json)
    (store s2 : List StoredUser) (e : String)
    (h : update_player_status username resp store = (.raised e, s2)) : s2 = store := by
  rw [update_player_status] at h
  cases hf : findUser store (pyLower username) with
  | none => rw [hf] at h; cases h
  | some u =>
    rw [hf] at h
    cases hc : check_player_live_games username resp with
    | error m2 un2 => rw [hc] at h; cases h
    | raised e2 => rw [hc] at h; cases h; rfl
    | ok g => rw [hc] at h; cases h

/-- C2 (amended): a game enters the live list iff its move_by and turn
values are both truthy under Python truthiness (present and non-null,
non-zero, non-empty); excluded games still count toward total_games, and
is_playing is true iff at least one game passes the truthiness check. -/
theorem claim_c2_live_game_truthiness (u : String) (body : Json) (gs : List Json)
    (hbody : pyDictGet body "games" (Json.arr []) = some (Json.arr gs))
    (hobjs : ∀ g ∈ gs, jsonIsObj g = true) :
    check_player_live_games u (.ok body) =
      .ok { username := u,
            is_playing := decide (0 < ((gs.filter liveCond).map mkLiveGame).length),
            live_games := (gs.filter liveCond).map mkLiveGame,
            total_games := gs.length }
    ∧ ((∃ g ∈ gs, liveCond g = true) ↔
        0 < ((gs.filter liveCond).map mkLiveGame).length) := by
  constructor
  · rw [check_player_live_games]
    simp only [hbody]
    have hi : pyIterate (Json.arr gs) = some gs := rfl
    simp only [hi, collectLiveGames_of_objs gs hobjs]
  · rw [List.length_map, List.length_pos]
    constructor
    · rintro ⟨g, hg, hcond⟩ hnil
      rw [List.filter_eq_nil_iff] at hnil
      exact hnil g hg hcond
    · intro hne
      rcases List.exists_mem_of_ne_nil _ hne with ⟨g, hg⟩
      exact ⟨g, (List.mem_filter.mp hg).1, (List.mem_filter.mp hg).2⟩

/-- C2 counterexample: a game whose move_by key is present (with value 0)
and whose turn key is present is nevertheless excluded from the live list,
and is_playing stays false, while total_games still counts the game. -/
theorem claim_c2_live_game_truthiness_cex :
    check_player_live_games "alice" (.ok (Json.obj [("games", Json.arr [zeroMoveByGame])]))
      = .ok { username := "alice", is_playing := false, live_games := [], total_games := 1 }
    ∧ hasKey zeroMoveByGame "move_by" = true
    ∧ hasKey zeroMoveByGame "turn" = true :=
  ⟨rfl, rfl, rfl⟩

/-- C2 witness: evaluation at a two-game response, one live and one with a
falsy move_by. -/
theorem claim_c2_live_game_truthiness_witness :
    check_player_live_games "bob"
        (.ok (Json.obj [("games", Json.arr [liveGameJson, zeroMoveByGame])]))
      = .ok { username := "bob", is_playing := true,
              live_games := [mkLiveGame liveGameJson], total_games := 2 } := by
  have h := (claim_c2_live_game_truthiness "bob"
      (Json.obj [("games", Json.arr [liveGameJson, zeroMoveByGame])])
      [liveGameJson, zeroMoveByGame] rfl
      (by intro g hg; simp at hg; rcases hg with rfl | rfl <;> rfl)).1
  rw [h]
  rfl

/-- C3: the status updater reads the stored flag as was_playing, takes
is_now_playing from the fresh snapshot, reports status_changed as their
inequality, and persists the fresh flag unconditionally; the persisted
value is what the next lookup of the same username reads. -/
theorem claim_c3_status_update_contract (username : String) (resp : Except String Json)
    (store : List StoredUser) (u : StoredUser) (g : LiveGamesOk)
    (hu : findUser store (pyLower username) = some u)
    (hc : check_player_live_games username resp = .ok g) :
    update_player_status username resp store =
      (.ok { username := username, was_playing := u.is_playing,
             is_now_playing := g.is_playing,
             status_changed := u.is_playing != g.is_playing,
             live_games := g.live_games },
       setPlaying store (pyLower username) g.is_playing)
    ∧ findUser (setPlaying store (pyLower username) g.is_playing) (pyLower username)
        = some { u with is_playing := g.is_playing } := by
  refine ⟨?_, findUser_setPlaying store (pyLower username) g.is_playing u hu⟩
  rw [update_player_status]
  simp only [hu, hc]

/-- C3 witness: the stored fixture player flips from not playing to playing
on a fresh snapshot with one live game. -/
theorem claim_c3_status_update_contract_witness :
    update_player_status "magnus" (.ok okGamesBody) [magnusUser]
      = (.ok { username := "magnus", was_playing := false, is_now_playing := true,
               status_changed := true, live_games := [mkLiveGame liveGameJson] },
         setPlaying [magnusUser] (pyLower "magnus") true)
    ∧ findUser (setPlaying [magnusUser] (pyLower "magnus") true) (pyLower "magnus")
        = some { magnusUser with is_playing := true } :=
  claim_c3_status_update_contract "magnus" (.ok okGamesBody) [magnusUser] magnusUser
    { username := "magnus", is_playing := true,
      live_games := [mkLiveGame liveGameJson], total_games := 1 } rfl rfl

/-- C6 (amended): the profile fetch converts request failures and
malformed bodies alike into the 500 error dict, and the live-games check
converts request-layer failures into its error dict; but a live-games body
that decodes to a non-dict value raises past the function boundary. -/
theorem claim_c6_fault_conversion (u e : String) (store : List StoredUser) (cd : Json)
    (hbad : buildUserData cd = none) :
    fetch_and_save_chesscom_user u (.error e) store
        = (.error ("Error fetching player data: " ++ e) 500, store)
    ∧ fetch_and_save_chesscom_user u (.ok cd) store
        = (.error ("Error fetching player data: AttributeError") 500, store)
    ∧ check_player_live_games u (.error e)
        = .error ("Error fetching games for " ++ u ++ ": " ++ e) u
    ∧ check_player_live_games u (.ok (Json.arr [])) = .raised "AttributeError" := by
  refine ⟨rfl, ?_, rfl, rfl⟩
  rw [fetch_and_save_chesscom_user]
  simp only [hbad]

/-- C6 counterexample: on a response body that is valid JSON but not a
dict, the live-games check lets AttributeError escape instead of returning
an error result. -/
theorem claim_c6_fault_conversion_cex :
    check_player_live_games "alice" (.ok (Json.arr [])) = .raised "AttributeError" := rfl

/-- C6 witness: the profile fetch converts a malformed (non-dict) body into
the 500 error dict without touching the store. -/
theorem claim_c6_fault_conversion_witness :
    fetch_and_save_chesscom_user "alice" (.ok (Json.arr [])) []
      = (.error ("Error fetching player data: AttributeError") 500, []) :=
  (claim_c6_fault_conversion "alice" "boom" [] (Json.arr []) rfl).2.1

/-- C7: when the live-games check fails for a stored player, the status
updater returns the very same error value and the store is untouched. -/
theorem claim_c7_error_passthrough (username : String) (resp : Except String Json)
    (store : List StoredUser) (u : StoredUser) (m un : String)
    (hu : findUser store (pyLower username) = some u)
    (hc : check_player_live_games username resp = .error m un) :
    update_player_status username resp store = (.error m un, store) := by
  rw [update_player_status]
  simp only [hu, hc]

/-- C7 witness: a failing games fetch for the stored fixture player passes
through unchanged and leaves the store as it was. -/
theorem claim_c7_error_passthrough_witness :
    update_player_status "magnus" (.error "boom") [magnusUser]
      = (.error ("Error fetching games for magnus: boom") "magnus", [magnusUser]) :=
  claim_c7_error_passthrough "magnus" (.error "boom") [magnusUser] magnusUser
    ("Error fetching games for magnus: boom") "magnus" rfl rfl

/-- C9 (amended): the stored-profile read lowercases the username before
comparing, so any case variant reads the same record; the removal
operation compares the username exactly as given, so it matches only the
verbatim stored spelling and returns not-found for other case variants. -/
theorem claim_c9_remove_case_mismatch (u1 u2 : String) (store : List StoredUser) :
    (pyLower u1 = pyLower u2 → get_chesscom_user u1 store = get_chesscom_user u2 store)
    ∧ ((∀ r ∈ store, jsonBeq r.data.username (Json.str u1) = false) →
        remove_chesscom_user u1 store
          = (.error (Json.obj [("error", Json.str "User not found")]) 404, store))
    ∧ (∀ r, store.find? (fun x => jsonBeq x.data.username (Json.str u1)) = some r →
        remove_chesscom_user u1 store
          = (.ok (Json.obj [("message", Json.str "User removed")]) 200,
             deleteFirstByUsername store u1)) := by
  refine ⟨?_, ?_, ?_⟩
  · intro h
    rw [get_chesscom_user, get_chesscom_user, h]
  · intro h
    rw [remove_chesscom_user, List.find?_eq_none.mpr (fun x hx => by simp [h x hx])]
  · intro r hr
    rw [remove_chesscom_user, hr]

/-- C9 counterexample: the fixture player is stored under the lowercase
spelling; the read view finds it for the case variant, but removal with
the same variant answers not-found and deletes nothing. -/
theorem claim_c9_remove_case_mismatch_cex :
    pyLower "Magnus" = "magnus"
    ∧ magnusUser.data.username = Json.str "magnus"
    ∧ get_chesscom_user "Magnus" [magnusUser]
        = .ok (Json.obj [("player_id", Json.num 1), ("username", Json.str "magnus"),
            ("name", Json.str "Magnus Carlsen"), ("followers", Json.num 0),
            ("country", Json.null), ("league", Json.null),
            ("last_online", Json.num 0), ("is_streamer", Json.bool false)]) 200
    ∧ remove_chesscom_user "Magnus" [magnusUser]
        = (.error (Json.obj [("error", Json.str "User not found")]) 404, [magnusUser]) :=
  ⟨by decide, rfl, rfl, rfl⟩

/-- C9 witness: removal with the exact stored lowercase spelling matches
and deletes the row. -/
theorem claim_c9_remove_case_mismatch_witness :
    remove_chesscom_user "magnus" [magnusUser]
      = (.ok (Json.obj [("message", Json.str "User removed")]) 200,
         deleteFirstByUsername [magnusUser] "magnus") :=
  (claim_c9_remove_case_mismatch "magnus" "magnus" [magnusUser]).2.2 magnusUser rfl

/-- C5: with at least one active subscription and the dict-shaped games the
checker produces, the notifier processes every active subscription
independently — one appended NotificationLog row per attempt, in order,
each row determined only by that subscriber's own delivery outcome,
carrying the outcome flag and, on failure, the error text. -/
theorem claim_c5_isolated_delivery (user : StoredUser) (live : List Json)
    (subs : List Subscription) (logs : List NotificationLogRow)
    (mail : String → Option String) (a : Subscription) (rest : List Subscription)
    (hact : activeSubscriptionsFor subs user = a :: rest)
    (hobjs : ∀ g ∈ live, jsonIsObj g = true) :
    send_live_match_notification user live subs logs mail =
      (.processed ("Notifications processed for " ++ pyStr user.data.username)
        ((a :: rest).filter (fun s => (mail s.email).isNone)).length
        ((a :: rest).filter (fun s => (mail s.email).isSome)).length
        (a :: rest).length,
       logs ++ (a :: rest).map (notificationRow mail))
    ∧ (∀ s : Subscription,
        (notificationRow mail s).success = (mail s.email).isNone
        ∧ (notificationRow mail s).error_message = mail s.email
        ∧ (notificationRow mail s).subscription_email = s.email
        ∧ (notificationRow mail s).notification_type = "live_match") := by
  refine ⟨notify_shape user live subs logs mail hobjs a rest hact, ?_⟩
  intro s
  cases hm : mail s.email <;> simp [notificationRow, hm]

/-- C5 witness: two active subscriptions, the second send raising; the
result is one success, one failure, and exactly two log rows with the
captured error text. -/
theorem claim_c5_isolated_delivery_witness :
    send_live_match_notification magnusUser [liveGameJson] [subA, subB] [] mailOneFailure =
      (.processed "Notifications processed for magnus" 1 1 2,
       [{ subscription_email := "a@x.com", subscription_player := Json.num 1,
          notification_type := "live_match", success := true, error_message := none },
        { subscription_email := "b@x.com", subscription_player := Json.num 1,
          notification_type := "live_match", success := false,
          error_message := some "SMTP Error" }]) := by
  have h := (claim_c5_isolated_delivery magnusUser [liveGameJson] [subA, subB] []
      mailOneFailure subA [subB] rfl
      (by intro g hg; rw [List.mem_singleton] at hg; rw [hg]; rfl)).1
  rw [h]
  rfl

/-- C10: with at least one active subscription, the returned counters
satisfy successful + failed = total, the total is the number of active
subscriptions at call time, and every active subscription is attempted
exactly once (one appended log row each). -/
theorem claim_c10_counter_invariant (user : StoredUser) (live : List Json)
    (subs : List Subscription) (logs : List NotificationLogRow)
    (mail : String → Option String) (a : Subscription) (rest : List Subscription)
    (hact : activeSubscriptionsFor subs user = a :: rest)
    (hobjs : ∀ g ∈ live, jsonIsObj g = true) :
    ∃ msg s f,
      send_live_match_notification user live subs logs mail =
        (.processed msg s f (activeSubscriptionsFor subs user).length,
         logs ++ (activeSubscriptionsFor subs user).map (notificationRow mail))
      ∧ s + f = (activeSubscriptionsFor subs user).length
      ∧ (logs ++ (activeSubscriptionsFor subs user).map (notificationRow mail)).length
          = logs.length + (activeSubscriptionsFor subs user).length := by
  rw [hact]
  exact ⟨_, _, _, notify_shape user live subs logs mail hobjs a rest hact,
    filter_mail_split mail (a :: rest), by simp⟩

/-- C10 witness: evaluation at the two-subscription fixture. -/
theorem claim_c10_counter_invariant_witness :
    ∃ msg s f,
      send_live_match_notification magnusUser [liveGameJson] [subA, subB] [] mailOneFailure =
        (.processed msg s f (activeSubscriptionsFor [subA, subB] magnusUser).length,
         [] ++ (activeSubscriptionsFor [subA, subB] magnusUser).map (notificationRow mailOneFailure))
      ∧ s + f = (activeSubscriptionsFor [subA, subB] magnusUser).length
      ∧ ([] ++ (activeSubscriptionsFor [subA, subB] magnusUser).map (notificationRow mailOneFailure)).length
          = List.length ([] : List NotificationLogRow)
            + (activeSubscriptionsFor [subA, subB] magnusUser).length :=
  claim_c10_counter_invariant magnusUser [liveGameJson] [subA, subB] [] mailOneFailure
    subA [subB] rfl
    (by intro g hg; rw [List.mem_singleton] at hg; rw [hg]; rfl)

/-- C1: when the status updater succeeds for a player, the orchestrator
invokes the notifier iff was_playing = false, is_now_playing = true and
status_changed = true, and then adds the notifier's successful-send count
to the running total; in every other case — the true-to-false change in
particular — the log table, the counter and the errors list stay
untouched. -/
theorem claim_c1_transition_gate (resp : String → Except String Json)
    (mail : String → Option String) (subs : List Subscription)
    (st : BatchState) (user : StoredUser) (r : StatusResult) (store2 : List StoredUser)
    (hup : update_player_status (pyStr user.data.username)
        (resp (pyStr user.data.username)) st.store = (.ok r, store2)) :
    ((r.was_playing = false ∧ r.is_now_playing = true ∧ r.status_changed = true) →
      processOneUser resp mail subs st user =
        { st with
          store := store2,
          logs := (send_live_match_notification user r.live_games subs st.logs mail).2,
          notifications_sent := st.notifications_sent
            + resultSends (send_live_match_notification user r.live_games subs st.logs mail).1 })
    ∧ (¬ (r.was_playing = false ∧ r.is_now_playing = true ∧ r.status_changed = true) →
      processOneUser resp mail subs st user = { st with store := store2 })
    ∧ ((r.was_playing = true ∧ r.is_now_playing = false) →
      processOneUser resp mail subs st user = { st with store := store2 }) := by
  have hobjs := update_ok_objs _ _ _ _ _ hup
  have hskip : ¬ (r.was_playing = false ∧ r.is_now_playing = true ∧ r.status_changed = true) →
      processOneUser resp mail subs st user = { st with store := store2 } := by
    intro hne
    have hcond : (!r.was_playing && r.is_now_playing && r.status_changed) = false := by
      cases hw : r.was_playing <;> cases hn : r.is_now_playing <;>
        cases hc : r.status_changed <;> simp_all
    rw [processOneUser]
    simp only [hup, hcond, Bool.false_eq_true, if_false]
  refine ⟨?_, hskip, fun hw => hskip (by simp [hw.1])⟩
  rintro ⟨hw, hn, hc⟩
  have hcond : (!r.was_playing && r.is_now_playing && r.status_changed) = true := by
    rw [hw, hn, hc]
    rfl
  rw [processOneUser]
  simp only [hup, hcond, if_true]
  rcases hsn : send_live_match_notification user r.live_games subs st.logs mail with ⟨res, logs2⟩
  cases res with
  | raised e =>
    exact absurd (by rw [hsn]) (notify_not_raised user r.live_games subs st.logs mail hobjs e)
  | noActive msg => simp [hsn]
  | processed msg s f t => simp [hsn]

/-- C1 witness: the fixture player transitions false to true; the notifier
runs on the two-subscription fixture and its successful-send count is
added. -/
theorem claim_c1_transition_gate_witness :
    processOneUser (fun _ => Except.ok okGamesBody) mailOneFailure [subA, subB]
        { store := [magnusUser], logs := [], notifications_sent := 0, errors := [] }
        magnusUser
      = { store := [{ data := magnusData, is_playing := true }],
          logs := (send_live_match_notification magnusUser [mkLiveGame liveGameJson]
            [subA, subB] [] mailOneFailure).2,
          notifications_sent := 0 + resultSends (send_live_match_notification magnusUser
            [mkLiveGame liveGameJson] [subA, subB] [] mailOneFailure).1,
          errors := [] } :=
  (claim_c1_transition_gate (fun _ => Except.ok okGamesBody) mailOneFailure [subA, subB]
    { store := [magnusUser], logs := [], notifications_sent := 0, errors := [] } magnusUser
    { username := "magnus", was_playing := false, is_now_playing := true,
      status_changed := true, live_games := [mkLiveGame liveGameJson] }
    [{ data := magnusData, is_playing := true }] rfl).1 ⟨rfl, rfl, rfl⟩

/-- C4: a status-updater failure for one player — its error dict or an
escaped exception — is recorded as an errors entry carrying that player's
username, the store is left as it was, and the fold over the remaining
players continues from there; the batch is a total fold that always ends
in the aggregate report. -/
theorem claim_c4_resilient_batch (resp : String → Except String Json)
    (mail : String → Option String) (subs : List Subscription) :
    (∀ (st : BatchState) (user : StoredUser) (m un : String) (store2 : List StoredUser),
      update_player_status (pyStr user.data.username) (resp (pyStr user.data.username))
          st.store = (.error m un, store2) →
      un = pyStr user.data.username ∧ store2 = st.store ∧
      processOneUser resp mail subs st user =
        { st with errors := st.errors ++ [{ error := m, username := un }] })
    ∧ (∀ (st : BatchState) (user : StoredUser) (e : String) (store2 : List StoredUser),
      update_player_status (pyStr user.data.username) (resp (pyStr user.data.username))
          st.store = (.raised e, store2) →
      store2 = st.store ∧
      processOneUser resp mail subs st user =
        { st with errors := st.errors ++
            [{ error := "Error processing " ++ pyStr user.data.username ++ ": " ++ e,
               username := pyStr user.data.username }] })
    ∧ (∀ (us1 us2 : List StoredUser) (user : StoredUser) (init : BatchState),
      (us1 ++ user :: us2).foldl (processOneUser resp mail subs) init =
        us2.foldl (processOneUser resp mail subs)
          (processOneUser resp mail subs (us1.foldl (processOneUser resp mail subs) init) user))
    ∧ (∀ (store : List StoredUser) (logs : List NotificationLogRow),
      (check_and_notify_all_users resp mail subs store logs).1.message
        = "Batch check completed") := by
  refine ⟨?_, ?_, ?_, ?_⟩
  · intro st user m un store2 hup
    obtain ⟨hun, hst⟩ := update_error_inv _ _ _ _ _ _ hup
    refine ⟨hun, hst, ?_⟩
    rw [processOneUser]
    simp only [hup]
    rw [hst]
  · intro st user e store2 hup
    have hst := update_raised_inv _ _ _ _ _ hup
    refine ⟨hst, ?_⟩
    rw [processOneUser]
    simp only [hup]
    rw [hst]
  · intro us1 us2 user init
    rw [List.foldl_append, List.foldl_cons]
  · intro store logs
    rfl

/-- C4 witness: the games fetch fails for the single stored player; the
batch step records an errors entry carrying the username and changes
nothing else. -/
theorem claim_c4_resilient_batch_witness :
    processOneUser (fun _ => Except.error "boom") mailOneFailure []
        { store := [magnusUser], logs := [], notifications_sent := 0, errors := [] }
        magnusUser
      = { store := [magnusUser], logs := [], notifications_sent := 0,
          errors := [{ error := "Error fetching games for magnus: boom",
                       username := "magnus" }] } := by
  have h := ((claim_c4_resilient_batch (fun _ => Except.error "boom") mailOneFailure []).1
      { store := [magnusUser], logs := [], notifications_sent := 0, errors := [] }
      magnusUser "Error fetching games for magnus: boom" "magnus" [magnusUser] rfl).2.2
  rw [h]
  rfl

/-- C8: a successful profile fetch upserts keyed on the numeric external
id: with no row for the id yet, the first call creates exactly one row and
reports status 201; a second call with changed data for the same id
rewrites that same single row in place — same row count, updated data —
and reports status 200. -/
theorem claim_c8_upsert_by_external_id (u1 u2 : String) (cd1 cd2 : Json)
    (d1 d2 : UserData) (n : Int) (store : List StoredUser)
    (h1 : buildUserData cd1 = some d1) (h2 : buildUserData cd2 = some d2)
    (hp1 : d1.player_id = Json.num n) (hp2 : d2.player_id = Json.num n)
    (h0 : countByPlayerId store (Json.num n) = 0) :
    fetch_and_save_chesscom_user u1 (.ok cd1) store
        = (.ok ("New user \x27" ++ u1 ++ "\x27 added.") d1 201,
           store ++ [{ data := d1, is_playing := false }])
    ∧ countByPlayerId (store ++ [{ data := d1, is_playing := false }]) (Json.num n) = 1
    ∧ fetch_and_save_chesscom_user u2 (.ok cd2)
          (store ++ [{ data := d1, is_playing := false }])
        = (.ok ("User \x27" ++ u2 ++ "\x27 updated.") d2 200,
           store ++ [{ data := d2, is_playing := false }])
    ∧ countByPlayerId (store ++ [{ data := d2, is_playing := false }]) (Json.num n) = 1 := by
  have hb1 : jsonBeq d1.player_id (Json.num n) = true := by
    rw [hp1, jsonBeq_num]
    simp
  have hb2 : jsonBeq d2.player_id (Json.num n) = true := by
    rw [hp2, jsonBeq_num]
    simp
  have hf0 := find?_none_of_count_zero store (Json.num n) h0
  have hfind : List.find? (fun (r : StoredUser) => jsonBeq r.data.player_id (Json.num n))
      (store ++ [{ data := d1, is_playing := false }])
        = some { data := d1, is_playing := false } :=
    find?_append_singleton store { data := d1, is_playing := false }
      (fun (r : StoredUser) => jsonBeq r.data.player_id (Json.num n)) hf0 hb1
  have hrep : replaceByPlayerId (store ++ [{ data := d1, is_playing := false }])
      (Json.num n) d2 = store ++ [{ data := d2, is_playing := false }] :=
    replaceByPlayerId_append store (Json.num n) d2 { data := d1, is_playing := false }
      (count_zero_all_false store (Json.num n) h0) hb1
  refine ⟨?_, ?_, ?_, ?_⟩
  · rw [fetch_and_save_chesscom_user]
    simp only [h1, update_or_create, hp1, hf0]
    simp
  · rw [countByPlayerId_append, h0, countByPlayerId_single_pos _ _ hb1]
  · rw [fetch_and_save_chesscom_user]
    simp only [h2, update_or_create, hp2, hfind, hrep]
    simp
  · rw [countByPlayerId_append, h0, countByPlayerId_single_pos _ _ hb2]

/-- C8 witness: two fetches for the same external id 1 on an empty store:
the first creates the single row with status 201, the second updates the
same row with status 200 and the row count stays 1. -/
theorem claim_c8_upsert_by_external_id_witness :
    fetch_and_save_chesscom_user "Magnus" (.ok profileBody1) []
        = (.ok ("New user \x27Magnus\x27 added.") magnusData1 201,
           [{ data := magnusData1, is_playing := false }])
    ∧ countByPlayerId [{ data := magnusData1, is_playing := false }] (Json.num 1) = 1
    ∧ fetch_and_save_chesscom_user "Magnus" (.ok profileBody2)
          [{ data := magnusData1, is_playing := false }]
        = (.ok ("User \x27Magnus\x27 updated.") magnusData2 200,
           [{ data := magnusData2, is_playing := false }])
    ∧ countByPlayerId [{ data := magnusData2, is_playing := false }] (Json.num 1) = 1 := by
  have h := claim_c8_upsert_by_external_id "Magnus" "Magnus" profileBody1 profileBody2
    magnusData1 magnusData2 1 [] rfl rfl rfl rfl rfl
  exact h
